import Mathlib

/-!
Verification of the provider/model resolution, error classification,
model discovery/caching and health-check layer of the claude-mode CLI
(`src/providers.ts`, `src/config.ts`, `src/errors.ts`), as a shallow
embedding: pure TypeScript functions become Lean functions, the two
caches become explicit state passing, and the network is an oracle
argument describing the outcome of the single HTTP fetch a call issues.
-/

namespace ClaudeMode

/-- A model entry, mirroring the `Model` interface of `providers.ts`:
`{ id: string; name: string; shortcut: string }`. -/
structure Model where
  id : String
  name : String
  shortcut : String
deriving DecidableEq, Repr

/-- The error codes of `errors.ts` (`enum ErrorCode`). -/
inductive ErrorCode where
  | CONNECTION_REFUSED
  | CONNECTION_TIMEOUT
  | DNS_RESOLUTION_FAILED
  | AUTH_MISSING
  | AUTH_INVALID
  | PROVIDER_NOT_FOUND
  | PROVIDER_UNAVAILABLE
  | MODEL_NOT_FOUND
  | MODEL_FETCH_FAILED
  | CLAUDE_NOT_FOUND
  | CLAUDE_FAILED
  | CONFIG_PARSE_ERROR
  | UNKNOWN
deriving DecidableEq, Repr

/-- A JavaScript thrown value as seen by `classifyError(error: unknown)`:
either an `Error` object carrying a `message`, or any other value,
represented by its string form `String(value)`. -/
inductive ThrownValue where
  | err (message : String)
  | nonErr (stringForm : String)
deriving DecidableEq, Repr

/-- The `ClaudeModeError` interface of `errors.ts`:
`{ code; message; hint?; cause? }`. -/
structure ClaudeModeError where
  code : ErrorCode
  message : String
  hint : Option String := none
  cause : Option ThrownValue := none
deriving DecidableEq, Repr

/-- JavaScript `s.toLowerCase()` on the ASCII strings this code
compares: lowercase each character. (Defined through the character
list so that it evaluates by kernel reduction.) -/
def strToLower (s : String) : String :=
  ⟨s.data.map Char.toLower⟩

/-- `pat` occurs as a contiguous run inside the character list. -/
def charsContain (pat : List Char) : List Char → Bool
  | [] => pat.isEmpty
  | c :: rest => pat.isPrefixOf (c :: rest) || charsContain pat rest

/-- JavaScript `s.includes(pat)`: substring containment. -/
def strIncludes (s pat : String) : Bool :=
  charsContain pat.toList s.toList

/-- `classifyError` from `errors.ts`, the ordered case-insensitive
substring cascade over the message of an `Error`; any non-`Error`
value falls through to the final `UNKNOWN` return, whose message is
`String(error)` and which carries no `cause`. -/
def classifyError (error : ThrownValue) : ClaudeModeError :=
  match error with
  | .err message =>
    let msg := strToLower message
    if strIncludes msg "econnrefused" || strIncludes msg "connection refused" then
      { code := .CONNECTION_REFUSED
        message := "Connection refused"
        hint := some "Check that the server is running and the URL is correct."
        cause := some (.err message) }
    else if strIncludes msg "etimedout" || strIncludes msg "timeout" || strIncludes msg "timed out" then
      { code := .CONNECTION_TIMEOUT
        message := "Connection timed out"
        hint := some "The server took too long to respond. Check network connectivity or increase timeout in config."
        cause := some (.err message) }
    else if strIncludes msg "enotfound" || strIncludes msg "getaddrinfo" then
      { code := .DNS_RESOLUTION_FAILED
        message := "DNS resolution failed"
        hint := some "Could not resolve hostname. Check the URL and your internet connection."
        cause := some (.err message) }
    else if strIncludes msg "401" || strIncludes msg "unauthorized" then
      { code := .AUTH_INVALID
        message := "Authentication failed"
        hint := some "Check that your API key is valid and correctly set in .env file."
        cause := some (.err message) }
    else if strIncludes msg "403" || strIncludes msg "forbidden" then
      { code := .AUTH_INVALID
        message := "Access forbidden"
        hint := some "Your API key may not have access to this resource."
        cause := some (.err message) }
    else if strIncludes msg "model" && (strIncludes msg "not found" || strIncludes msg "404") then
      { code := .MODEL_NOT_FOUND
        message := "Model not found"
        hint := some "The specified model does not exist on this provider. Use --list to see available models."
        cause := some (.err message) }
    else if strIncludes msg "enoent" && strIncludes msg "claude" then
      { code := .CLAUDE_NOT_FOUND
        message := "Claude CLI not found"
        hint := some "Install Claude Code CLI: npm install -g @anthropic-ai/claude-code"
        cause := some (.err message) }
    else
      { code := .UNKNOWN, message := message, hint := none, cause := some (.err message) }
  | .nonErr stringForm =>
      { code := .UNKNOWN, message := stringForm, hint := none, cause := none }

/-- One classification rule, for the spec-side view of `classifyError`
as an ordered first-match rule table. -/
structure ErrorRule where
  applies : String → Bool
  code : ErrorCode
  message : String
  hint : String

/-- The classification rules of `classifyError` as data, in the order
the spec documents: connection-refused, timeout, DNS, 401, 403,
model-not-found, binary-missing. -/
def errorRules : List ErrorRule :=
  [ ⟨fun msg => strIncludes msg "econnrefused" || strIncludes msg "connection refused",
     .CONNECTION_REFUSED, "Connection refused",
     "Check that the server is running and the URL is correct."⟩,
    ⟨fun msg => strIncludes msg "etimedout" || strIncludes msg "timeout" || strIncludes msg "timed out",
     .CONNECTION_TIMEOUT, "Connection timed out",
     "The server took too long to respond. Check network connectivity or increase timeout in config."⟩,
    ⟨fun msg => strIncludes msg "enotfound" || strIncludes msg "getaddrinfo",
     .DNS_RESOLUTION_FAILED, "DNS resolution failed",
     "Could not resolve hostname. Check the URL and your internet connection."⟩,
    ⟨fun msg => strIncludes msg "401" || strIncludes msg "unauthorized",
     .AUTH_INVALID, "Authentication failed",
     "Check that your API key is valid and correctly set in .env file."⟩,
    ⟨fun msg => strIncludes msg "403" || strIncludes msg "forbidden",
     .AUTH_INVALID, "Access forbidden",
     "Your API key may not have access to this resource."⟩,
    ⟨fun msg => strIncludes msg "model" && (strIncludes msg "not found" || strIncludes msg "404"),
     .MODEL_NOT_FOUND, "Model not found",
     "The specified model does not exist on this provider. Use --list to see available models."⟩,
    ⟨fun msg => strIncludes msg "enoent" && strIncludes msg "claude",
     .CLAUDE_NOT_FOUND, "Claude CLI not found",
     "Install Claude Code CLI: npm install -g @anthropic-ai/claude-code"⟩ ]

/-- First-match lookup in an association list keyed by strings, the
behaviour of a plain JavaScript object / `Map` read. -/
def alookup (key : String) : List (String × α) → Option α
  | [] => none
  | (k, v) :: rest => if k = key then some v else alookup key rest

/-- `Map.set` / object assignment: overwrite the entry for `key`. -/
def aset (key : String) (v : α) (l : List (String × α)) : List (String × α) :=
  (key, v) :: l.filter (fun p => p.1 != key)

/-- The fixed `providerAliases` table of `providers.ts`. -/
def providerAliases : List (String × String) :=
  [ ("or", "openrouter"),
    ("open", "openrouter"),
    ("oc", "ollama-cloud"),
    ("cloud", "ollama-cloud"),
    ("ol", "ollama-local"),
    ("local", "ollama-local"),
    ("custom", "ollama-custom"),
    ("remote", "ollama-custom") ]

/-- `resolveProvider` from `providers.ts`:
`providerAliases[shortcut] || shortcut`. -/
def resolveProvider (shortcut : String) : String :=
  (alookup shortcut providerAliases).getD shortcut

/-- The static `models.openrouter` table of `providers.ts`. -/
def openrouterModels : List Model :=
  [ ⟨"openai/gpt-5.2", "GPT-5.2", "gpt52"⟩,
    ⟨"openai/gpt-5.2-pro", "GPT-5.2 Pro", "gpt52-pro"⟩,
    ⟨"openai/gpt-5.2-codex", "GPT-5.2 Codex", "gpt52-codex"⟩,
    ⟨"anthropic/claude-opus-4.5", "Claude Opus 4.5", "opus"⟩,
    ⟨"x-ai/grok-4.1-fast", "Grok 4.1 Fast", "grok"⟩,
    ⟨"deepseek/deepseek-v3.2", "DeepSeek V3.2", "deepseek"⟩,
    ⟨"z-ai/glm-4.7-flash", "Z.AI GLM 4.7 Flash", "zai-glm47-flash"⟩,
    ⟨"anthropic/claude-sonnet-4.5", "Claude Sonnet 4.5", "sonnet"⟩,
    ⟨"anthropic/claude-haiku-4.5", "Claude Haiku 4.5", "haiku"⟩,
    ⟨"@preset/gpt-oss-120b-cerebras", "GPT-OSS 120B (Cerebras)", "gpt120"⟩,
    ⟨"@preset/cerebras-glm-4-7-cerebras", "GLM 4.7 (Cerebras)", "glm47"⟩,
    ⟨"z-ai/glm-4.7", "Z.AI GLM 4.7", "zai-glm47"⟩,
    ⟨"google/gemini-3-pro-preview", "Gemini 3 Pro Preview", "gemini-pro"⟩,
    ⟨"google/gemini-3-flash-preview", "Gemini 3 Flash Preview", "gemini-flash"⟩ ]

/-- The `models` record of `providers.ts`: static model lists per
provider key (only `openrouter`; Ollama models are fetched via API). -/
def staticModels : List (String × List Model) :=
  [ ("openrouter", openrouterModels) ]

/-- The match predicate of the `find` callback in `resolveModel`:
`m.shortcut === shortcut || m.id === shortcut ||
 m.name.toLowerCase() === shortcut.toLowerCase()`. -/
def modelMatches (m : Model) (shortcut : String) : Bool :=
  m.shortcut == shortcut || m.id == shortcut || strToLower m.name == strToLower shortcut

/-- The single-pass `providerModels.find(...)` of `resolveModel`. -/
def findModel (providerModels : List Model) (shortcut : String) : Option Model :=
  providerModels.find? (fun m => modelMatches m shortcut)

/-- `isOllamaProvider` from `providers.ts`. -/
def isOllamaProvider (providerKey : String) : Bool :=
  providerKey == "ollama-local" ||
  providerKey == "ollama-custom" ||
  providerKey == "ollama-cloud" ||
  providerKey.startsWith "ollama-"

/-- The static (non-Ollama) branch of `resolveModel` from
`providers.ts` (lines 213-221): resolve the provider alias, look up the
static model list, return the found model's id or fall back to the
input unchanged (`model?.id || shortcut`). -/
def resolveModelStatic (providerKey shortcut : String) : String :=
  let resolvedKey := resolveProvider providerKey
  match alookup resolvedKey staticModels with
  | none => shortcut
  | some providerModels => ((findModel providerModels shortcut).map Model.id).getD shortcut

/-- `Response.ok` of the fetch API: status in the range 200-299. -/
def responseOk (status : Nat) : Bool :=
  200 ≤ status && status ≤ 299

/-- The outcome of parsing a discovery response body
(`await response.json()` then the `data.data` check): the body is not
valid JSON (`json()` rejects with the given message), or it parses but
holds no `data` array, or it holds a `data` array of descriptor ids. -/
inductive BodyParse where
  | invalidJson (message : String)
  | jsonNoData
  | jsonData (ids : List String)
deriving DecidableEq, Repr

/-- An HTTP response to the discovery `GET {baseUrl}/v1/models`. -/
structure HttpResponse where
  status : Nat
  statusText : String
  body : BodyParse
deriving DecidableEq, Repr

/-- The outcome of the single `fetch` that `fetchOllamaModelsFromAPI`
issues: the abort timer fired (`AbortError`), the fetch rejected with
some other thrown value, or a response arrived. -/
inductive FetchOutcome where
  | aborted
  | netError (e : ThrownValue)
  | response (r : HttpResponse)
deriving DecidableEq, Repr

/-- `fetchOllamaModelsFromAPI` from `providers.ts`: throw on a non-ok
status (`HTTP {status}: {statusText}`), rethrow a body-parse failure,
map an `AbortError` to `Error('Connection timed out')`, and on success
map each descriptor of the `data` array to
`{ id: model.id, name: model.id, shortcut: model.id }` (an absent
`data` array leaves the list empty). -/
def fetchOllamaModelsFromAPI (outcome : FetchOutcome) : Except ThrownValue (List Model) :=
  match outcome with
  | .aborted => .error (.err "Connection timed out")
  | .netError e => .error e
  | .response r =>
    if !responseOk r.status then
      .error (.err ("HTTP " ++ toString r.status ++ ": " ++ r.statusText))
    else
      match r.body with
      | .invalidJson message => .error (.err message)
      | .jsonNoData => .ok []
      | .jsonData ids => .ok (ids.map fun id => ⟨id, id, id⟩)

/-- Whether `fetchOllamaModelsFromAPI` throws for this outcome. -/
def fetchFails (outcome : FetchOutcome) : Bool :=
  match fetchOllamaModelsFromAPI outcome with
  | .error _ => true
  | .ok _ => false

/-- An entry of either model cache: a model list plus the epoch-millis
timestamp it was stored at (`{ models; timestamp }`). -/
structure CacheEntry where
  models : List Model
  timestamp : Nat
deriving DecidableEq, Repr

/-- The mutable caches `getOllamaModels` touches: the in-memory
`_ollamaModelCache` map and the on-disk `models.json` map written by
`saveModelCache` / read by `getCachedModels` (`config.ts`). -/
structure DiscoveryState where
  memCache : List (String × CacheEntry)
  diskCache : List (String × CacheEntry)
deriving DecidableEq, Repr

/-- `getCachedModels` from `config.ts`: the disk-cache entry's model
list, or `null` when no entry exists for the key. -/
def getCachedModels (providerKey : String) (diskCache : List (String × CacheEntry)) :
    Option (List Model) :=
  (alookup providerKey diskCache).map CacheEntry.models

/-- What one call to `getOllamaModels` produces: the returned model
list, the caches after the call, and whether a network request was
issued (the call reached the `fetchOllamaModelsFromAPI` line). -/
structure DiscoveryResult where
  models : List Model
  state : DiscoveryState
  requested : Bool
deriving DecidableEq, Repr

/-- The body of `getOllamaModels` past the in-memory-cache check:
return `[]` for an unregistered provider; on a successful fetch store
the list in both caches (`saveModelCache` stamps the disk entry with
`Date.now()`); on a thrown fetch fall back to a present, non-empty
disk-cache list, else return `[]`. -/
def ollamaFetchAndCache (providerKey : String) (now : Nat) (providerRegistered : Bool)
    (outcome : FetchOutcome) (st : DiscoveryState) : DiscoveryResult :=
  if !providerRegistered then ⟨[], st, false⟩
  else
    match fetchOllamaModelsFromAPI outcome with
    | .ok models =>
      ⟨models,
       ⟨aset providerKey ⟨models, now⟩ st.memCache,
        aset providerKey ⟨models, now⟩ st.diskCache⟩,
       true⟩
    | .error _ =>
      match getCachedModels providerKey st.diskCache with
      | some diskCached =>
        if diskCached.length > 0 then ⟨diskCached, st, true⟩ else ⟨[], st, true⟩
      | none => ⟨[], st, true⟩

/-- `getOllamaModels` from `providers.ts`: serve a fresh in-memory
cache entry (`now - cached.timestamp < cacheTTL`) without I/O,
otherwise fetch and cache. `now` is `Date.now()`, `cacheTTL` the
configured TTL (`getConfig('cacheTTL') || 30000`), `providerRegistered`
whether `getProviders()[providerKey]` exists, and `outcome` the result
of the network fetch were one issued. -/
def getOllamaModels (providerKey : String) (now cacheTTL : Nat) (providerRegistered : Bool)
    (outcome : FetchOutcome) (st : DiscoveryState) : DiscoveryResult :=
  match alookup providerKey st.memCache with
  | some cached =>
    if now - cached.timestamp < cacheTTL then ⟨cached.models, st, false⟩
    else ollamaFetchAndCache providerKey now providerRegistered outcome st
  | none => ollamaFetchAndCache providerKey now providerRegistered outcome st

/-- Whether the in-memory cache holds a fresh entry for the key, the
condition under which `getOllamaModels` returns without I/O. -/
def memFresh (st : DiscoveryState) (providerKey : String) (now cacheTTL : Nat) : Bool :=
  match alookup providerKey st.memCache with
  | some cached => now - cached.timestamp < cacheTTL
  | none => false

/-- The `cacheTTL` default of `DEFAULT_CONFIG` in `config.ts`. -/
def defaultCacheTTL : Nat := 30000

/-- `HealthCheckResult` from `providers.ts`. -/
structure HealthCheckResult where
  provider : String
  healthy : Bool
  latencyMs : Option Nat := none
  error : Option ClaudeModeError := none
deriving DecidableEq, Repr

/-- The outcome of the single `fetch` a health check issues: a
response with a status, or a thrown value (network error, abort). -/
inductive HealthOutcome where
  | response (status : Nat) (statusText : String)
  | thrown (e : ThrownValue)
deriving DecidableEq, Repr

/-- `checkProviderHealth` from `providers.ts` together with a flag
recording whether a network request was issued. `providerRegistered`
is whether `getProviders()[providerKey]` exists, `outcome` the fetch
outcome were a request issued, and `latencyMs` the measured
`Date.now() - startTime`. An unregistered key short-circuits to a
`PROVIDER_NOT_FOUND` result before any request; 2xx is healthy with
latency; 401/403 map to `AUTH_INVALID`; any other status maps to
`PROVIDER_UNAVAILABLE`; a thrown value is classified. -/
def checkProviderHealth (providerKey : String) (providerRegistered : Bool)
    (outcome : HealthOutcome) (latencyMs : Nat) : HealthCheckResult × Bool :=
  if !providerRegistered then
    ({ provider := providerKey
       healthy := false
       error := some { code := .PROVIDER_NOT_FOUND
                       message := "Provider not found: " ++ providerKey } },
     false)
  else
    match outcome with
    | .response status statusText =>
      if responseOk status then
        ({ provider := providerKey, healthy := true, latencyMs := some latencyMs }, true)
      else if status == 401 || status == 403 then
        ({ provider := providerKey
           healthy := false
           latencyMs := some latencyMs
           error := some { code := .AUTH_INVALID
                           message := "Authentication failed (" ++ toString status ++ ")"
                           hint := some "Check your API key configuration." } },
         true)
      else
        ({ provider := providerKey
           healthy := false
           latencyMs := some latencyMs
           error := some { code := .PROVIDER_UNAVAILABLE
                           message := "HTTP " ++ toString status ++ ": " ++ statusText } },
         true)
    | .thrown e =>
      ({ provider := providerKey
         healthy := false
         latencyMs := some latencyMs
         error := some (classifyError e) },
       true)

theorem alookup_mem_snd {α : Type} (x : String) (t : α) :
    ∀ l : List (String × α), alookup x l = some t → ∃ p, p ∈ l ∧ p.2 = t
  | [], h => by simp [alookup] at h
  | (k, v) :: rest, h => by
    by_cases hk : k = x
    · refine ⟨(k, v), List.mem_cons_self .., ?_⟩
      simp [alookup, hk] at h
      simpa using h
    · obtain ⟨p, hp, ht⟩ := alookup_mem_snd x t rest (by simpa [alookup, hk] using h)
      exact ⟨p, List.mem_cons_of_mem _ hp, ht⟩

theorem aliasTargets_not_keys :
    ∀ p ∈ providerAliases, alookup p.2 providerAliases = none := by decide

/-- Claim C7: provider alias resolution is idempotent
(`resolveProvider (resolveProvider x) = resolveProvider x` for every
input string); an input present in the alias table maps to its target,
and any other input is returned unchanged. -/
theorem resolveProvider_idempotent :
    (∀ x, resolveProvider (resolveProvider x) = resolveProvider x) ∧
    (∀ x t, alookup x providerAliases = some t → resolveProvider x = t) ∧
    (∀ x, alookup x providerAliases = none → resolveProvider x = x) := by
  refine ⟨fun x => ?_, fun x t h => by simp [resolveProvider, h],
    fun x h => by simp [resolveProvider, h]⟩
  cases h : alookup x providerAliases with
  | none => simp [resolveProvider, h]
  | some t =>
    obtain ⟨p, hp, ht⟩ := alookup_mem_snd x t _ h
    have hnone := aliasTargets_not_keys p hp
    rw [ht] at hnone
    simp [resolveProvider, h, hnone]

/-- Witness for C7 at concrete inputs: the alias `or` maps to
`openrouter` and the unknown key `xyz` passes through. -/
theorem resolveProvider_idempotent_witness :
    resolveProvider "or" = "openrouter" ∧ resolveProvider "xyz" = "xyz" :=
  ⟨resolveProvider_idempotent.2.1 "or" "openrouter" (by decide),
   resolveProvider_idempotent.2.2 "xyz" (by decide)⟩

/-- Claim C4: on the static OpenRouter model list, resolving a model's
shortcut returns its exact id, resolving a model's id returns that same
string, and resolving a string matching no shortcut, id or
case-insensitive name returns the input unchanged. -/
theorem resolveModelStatic_openrouter :
    (∀ m ∈ openrouterModels,
       resolveModelStatic "openrouter" m.shortcut = m.id ∧
       resolveModelStatic "openrouter" m.id = m.id) ∧
    (∀ s, (∀ m ∈ openrouterModels, modelMatches m s = false) →
       resolveModelStatic "openrouter" s = s) := by
  constructor
  · decide
  · intro s hs
    have hfind : findModel openrouterModels s = none := by
      simp only [findModel, List.find?_eq_none]
      intro m hm
      simp [hs m hm]
    have hkey : alookup (resolveProvider "openrouter") staticModels = some openrouterModels := by
      decide
    simp [resolveModelStatic, hkey, hfind]

/-- Witness for C4: `sonnet` resolves to the Claude Sonnet 4.5 id, the
id resolves to itself, and `nonexistent` passes through unchanged. -/
theorem resolveModelStatic_openrouter_witness :
    resolveModelStatic "openrouter" "sonnet" = "anthropic/claude-sonnet-4.5" ∧
    resolveModelStatic "openrouter" "anthropic/claude-sonnet-4.5" =
      "anthropic/claude-sonnet-4.5" ∧
    resolveModelStatic "openrouter" "nonexistent" = "nonexistent" := by
  refine ⟨?_, ?_, resolveModelStatic_openrouter.2 "nonexistent" (by decide)⟩
  · exact (resolveModelStatic_openrouter.1 ⟨"anthropic/claude-sonnet-4.5",
      "Claude Sonnet 4.5", "sonnet"⟩ (by decide)).1
  · exact (resolveModelStatic_openrouter.1 ⟨"anthropic/claude-sonnet-4.5",
      "Claude Sonnet 4.5", "sonnet"⟩ (by decide)).2

/-- Claim C3 counterexample: in the list
`[{id a, name sonnet, shortcut x}, {id b, name B, shortcut sonnet}]`
the only shortcut match for the input `sonnet` is the second model
(id `b`), yet the single-pass disjunctive `find` of `resolveModel`
returns the first model (a case-insensitive name match, id `a`), so a
shortcut match does not take priority over an earlier name match. -/
theorem findModel_shortcut_not_prioritized :
    (⟨"b", "B", "sonnet"⟩ : Model).shortcut = "sonnet" ∧
    (⟨"a", "sonnet", "x"⟩ : Model).shortcut ≠ "sonnet" ∧
    findModel [⟨"a", "sonnet", "x"⟩, ⟨"b", "B", "sonnet"⟩] "sonnet" =
      some ⟨"a", "sonnet", "x"⟩ ∧
    (⟨"a", "sonnet", "x"⟩ : Model).id ≠ "b" := by decide

/-- Claim C3 (amended): the model returned is the first in list order
matching any of the three criteria (exact shortcut, exact id,
case-insensitive name); in particular, when some model's shortcut
equals the input and every earlier model matches none of the criteria,
the first such shortcut match is returned. -/
theorem findModel_first_match (pre : List Model) (m : Model) (rest : List Model) (s : String)
    (hpre : ∀ x ∈ pre, modelMatches x s = false) (hm : m.shortcut = s) :
    findModel (pre ++ m :: rest) s = some m := by
  induction pre with
  | nil => simp [findModel, List.find?_cons, modelMatches, hm]
  | cons hd tl ih =>
    have hhd := hpre hd (List.mem_cons_self ..)
    have htl : ∀ x ∈ tl, modelMatches x s = false :=
      fun x hx => hpre x (List.mem_cons_of_mem _ hx)
    simpa [findModel, List.find?_cons, hhd] using ih htl

/-- Witness for the amended C3: with one non-matching model ahead of
it, the shortcut match `sonnet` is returned. -/
theorem findModel_first_match_witness :
    findModel ([⟨"a", "A", "x"⟩] ++ ⟨"b", "B", "sonnet"⟩ :: []) "sonnet" =
      some ⟨"b", "B", "sonnet"⟩ :=
  findModel_first_match [⟨"a", "A", "x"⟩] ⟨"b", "B", "sonnet"⟩ [] "sonnet"
    (by decide) (by decide)

/-- Claim C10: for a provider key not in the registry,
`checkProviderHealth` returns a structured result with that key,
`healthy = false`, no latency and a `PROVIDER_NOT_FOUND` error, and
issues no network request (and, being a total function, throws
nothing). -/
theorem checkProviderHealth_not_found (providerKey : String) (outcome : HealthOutcome)
    (latencyMs : Nat) :
    checkProviderHealth providerKey false outcome latencyMs =
      ({ provider := providerKey
         healthy := false
         latencyMs := none
         error := some { code := .PROVIDER_NOT_FOUND
                         message := "Provider not found: " ++ providerKey
                         hint := none
                         cause := none } },
       false) := by
  simp [checkProviderHealth]

/-- Claim C6: for a registered provider, a 401 or 403 response maps to
an unhealthy result with the authentication-failure code
`AUTH_INVALID`, any other non-2xx status maps to an unhealthy result
with `PROVIDER_UNAVAILABLE`, and a 2xx status maps to a healthy result
carrying the latency measurement. -/
theorem checkProviderHealth_status_mapping (providerKey statusText : String)
    (status latencyMs : Nat) :
    (status = 401 ∨ status = 403 →
       (checkProviderHealth providerKey true (.response status statusText) latencyMs).1.healthy
           = false ∧
       ((checkProviderHealth providerKey true (.response status statusText) latencyMs).1.error.map
           ClaudeModeError.code) = some .AUTH_INVALID) ∧
    (responseOk status = false → status ≠ 401 → status ≠ 403 →
       (checkProviderHealth providerKey true (.response status statusText) latencyMs).1.healthy
           = false ∧
       ((checkProviderHealth providerKey true (.response status statusText) latencyMs).1.error.map
           ClaudeModeError.code) = some .PROVIDER_UNAVAILABLE) ∧
    (responseOk status = true →
       (checkProviderHealth providerKey true (.response status statusText) latencyMs).1.healthy
           = true ∧
       (checkProviderHealth providerKey true (.response status statusText) latencyMs).1.latencyMs
           = some latencyMs) := by
  refine ⟨?_, ?_, ?_⟩
  · rintro (rfl | rfl) <;> simp [checkProviderHealth, responseOk]
  · intro hok h401 h403
    simp [checkProviderHealth, hok, h401, h403]
  · intro hok
    simp [checkProviderHealth, hok]

/-- Witness for C6 at concrete inputs: status 401 is an auth failure,
status 500 is provider-unavailable, status 200 is healthy with
latency. -/
theorem checkProviderHealth_status_mapping_witness :
    ((checkProviderHealth "openrouter" true (.response 401 "Unauthorized") 5).1.error.map
        ClaudeModeError.code) = some .AUTH_INVALID ∧
    ((checkProviderHealth "openrouter" true (.response 500 "Server Error") 5).1.error.map
        ClaudeModeError.code) = some .PROVIDER_UNAVAILABLE ∧
    (checkProviderHealth "openrouter" true (.response 200 "OK") 5).1.healthy = true :=
  ⟨((checkProviderHealth_status_mapping "openrouter" "Unauthorized" 401 5).1 (.inl rfl)).2,
   ((checkProviderHealth_status_mapping "openrouter" "Server Error" 500 5).2.1 (by decide)
      (by decide) (by decide)).2,
   ((checkProviderHealth_status_mapping "openrouter" "OK" 200 5).2.2 (by decide)).1⟩

theorem ollamaFetchAndCache_requested (providerKey : String) (now : Nat)
    (outcome : FetchOutcome) (st : DiscoveryState) :
    (ollamaFetchAndCache providerKey now true outcome st).requested = true := by
  unfold ollamaFetchAndCache
  cases h : fetchOllamaModelsFromAPI outcome with
  | ok ms => simp
  | error e =>
    cases hd : getCachedModels providerKey st.diskCache with
    | none => simp [hd]
    | some diskCached =>
      by_cases hl : diskCached.length > 0 <;> simp [hd, hl]

/-- Claim C2: when the in-memory cache holds an entry whose age
`now - timestamp` is strictly below the TTL, `getOllamaModels` returns
that entry's model list with no network request and the caches
untouched; when the age is at least the TTL (for a registered
provider) a fresh network request is issued. -/
theorem getOllamaModels_ttl (providerKey : String) (now cacheTTL : Nat)
    (outcome : FetchOutcome) (st : DiscoveryState) (cached : CacheEntry)
    (hmem : alookup providerKey st.memCache = some cached) :
    (now - cached.timestamp < cacheTTL →
       getOllamaModels providerKey now cacheTTL true outcome st =
         ⟨cached.models, st, false⟩) ∧
    (cacheTTL ≤ now - cached.timestamp →
       (getOllamaModels providerKey now cacheTTL true outcome st).requested = true) := by
  constructor
  · intro h
    simp [getOllamaModels, hmem, h]
  · intro h
    have h' : ¬(now - cached.timestamp < cacheTTL) := not_lt.mpr h
    simp only [getOllamaModels, hmem, h', if_false]
    exact ollamaFetchAndCache_requested ..

/-- Witness for C2: a 100 ms old entry with the default 30000 ms TTL
is served from memory without a request; at age 39900 ms a request is
issued. -/
theorem getOllamaModels_ttl_witness :
    getOllamaModels "ollama-local" 200 defaultCacheTTL true (.netError (.err "x"))
        ⟨[("ollama-local", ⟨[⟨"m1", "m1", "m1"⟩], 100⟩)], []⟩ =
      ⟨[⟨"m1", "m1", "m1"⟩], ⟨[("ollama-local", ⟨[⟨"m1", "m1", "m1"⟩], 100⟩)], []⟩, false⟩ ∧
    (getOllamaModels "ollama-local" 40000 defaultCacheTTL true (.netError (.err "x"))
        ⟨[("ollama-local", ⟨[⟨"m1", "m1", "m1"⟩], 100⟩)], []⟩).requested = true :=
  ⟨(getOllamaModels_ttl "ollama-local" 200 defaultCacheTTL (.netError (.err "x"))
      ⟨[("ollama-local", ⟨[⟨"m1", "m1", "m1"⟩], 100⟩)], []⟩ ⟨[⟨"m1", "m1", "m1"⟩], 100⟩
      (by decide)).1 (by decide),
   (getOllamaModels_ttl "ollama-local" 40000 defaultCacheTTL (.netError (.err "x"))
      ⟨[("ollama-local", ⟨[⟨"m1", "m1", "m1"⟩], 100⟩)], []⟩ ⟨[⟨"m1", "m1", "m1"⟩], 100⟩
      (by decide)).2 (by decide)⟩

/-- Claim C1: when the in-memory cache is not fresh and the live fetch
fails, `getOllamaModels` (a total function, so discovery throws nothing
past its boundary) returns the on-disk cached list for the key when one
is present and non-empty, and otherwise returns the empty list. -/
theorem getOllamaModels_disk_fallback (providerKey : String) (now cacheTTL : Nat)
    (outcome : FetchOutcome) (st : DiscoveryState)
    (hmem : memFresh st providerKey now cacheTTL = false)
    (hfail : fetchFails outcome = true) :
    (∀ entry, alookup providerKey st.diskCache = some entry → entry.models ≠ [] →
       (getOllamaModels providerKey now cacheTTL true outcome st).models = entry.models) ∧
    (∀ entry, alookup providerKey st.diskCache = some entry → entry.models = [] →
       (getOllamaModels providerKey now cacheTTL true outcome st).models = []) ∧
    (alookup providerKey st.diskCache = none →
       (getOllamaModels providerKey now cacheTTL true outcome st).models = []) := by
  have herr : ∃ e, fetchOllamaModelsFromAPI outcome = .error e := by
    unfold fetchFails at hfail
    cases h : fetchOllamaModelsFromAPI outcome with
    | ok ms => rw [h] at hfail; simp at hfail
    | error e => exact ⟨e, rfl⟩
  obtain ⟨e, he⟩ := herr
  have hred : getOllamaModels providerKey now cacheTTL true outcome st =
      ollamaFetchAndCache providerKey now true outcome st := by
    unfold memFresh at hmem
    unfold getOllamaModels
    cases h : alookup providerKey st.memCache with
    | none => simp
    | some cached =>
      rw [h] at hmem
      simp only [decide_eq_false_iff_not] at hmem
      simp [hmem]
  refine ⟨fun entry hdisk hne => ?_, fun entry hdisk hnil => ?_, fun hdisk => ?_⟩
  · have hlen : entry.models.length > 0 := List.length_pos.mpr hne
    simp [hred, ollamaFetchAndCache, he, getCachedModels, hdisk, hlen]
  · simp [hred, ollamaFetchAndCache, he, getCachedModels, hdisk, hnil]
  · simp [hred, ollamaFetchAndCache, he, getCachedModels, hdisk]

/-- Witness for C1: on a refused-connection fetch with an empty
in-memory cache, a non-empty disk entry is returned, and with no disk
entry the result is empty. -/
theorem getOllamaModels_disk_fallback_witness :
    (getOllamaModels "ollama-local" 0 defaultCacheTTL true
        (.netError (.err "connect ECONNREFUSED 127.0.0.1:11434"))
        ⟨[], [("ollama-local", ⟨[⟨"m1", "m1", "m1"⟩], 0⟩)]⟩).models = [⟨"m1", "m1", "m1"⟩] ∧
    (getOllamaModels "ollama-local" 0 defaultCacheTTL true
        (.netError (.err "connect ECONNREFUSED 127.0.0.1:11434")) ⟨[], []⟩).models = [] :=
  ⟨(getOllamaModels_disk_fallback "ollama-local" 0 defaultCacheTTL
      (.netError (.err "connect ECONNREFUSED 127.0.0.1:11434"))
      ⟨[], [("ollama-local", ⟨[⟨"m1", "m1", "m1"⟩], 0⟩)]⟩ (by decide) (by decide)).1
      ⟨[⟨"m1", "m1", "m1"⟩], 0⟩ (by decide) (by decide),
   (getOllamaModels_disk_fallback "ollama-local" 0 defaultCacheTTL
      (.netError (.err "connect ECONNREFUSED 127.0.0.1:11434"))
      ⟨[], []⟩ (by decide) (by decide)).2.2 (by decide)⟩

/-- Claim C5: for every `Error` input, `classifyError` tests the
lowercased message against the rules in the fixed order
connection-refused, timeout, DNS, 401/unauthorized, 403/forbidden,
model-not-found, binary-missing, and returns the first matching rule's
result (with the original error as cause); a message matching no rule
yields `UNKNOWN` with the message preserved verbatim and the original
error attached as cause. -/
theorem classifyError_first_rule (m : String) :
    classifyError (.err m) =
      match errorRules.find? (fun r => r.applies (strToLower m)) with
      | some r => ⟨r.code, r.message, some r.hint, some (.err m)⟩
      | none => ⟨.UNKNOWN, m, none, some (.err m)⟩ := by
  simp only [classifyError, errorRules, List.find?]
  by_cases h1 : (strIncludes (strToLower m) "econnrefused" ||
      strIncludes (strToLower m) "connection refused") = true
  · simp [h1]
  simp only [Bool.not_eq_true] at h1
  by_cases h2 : (strIncludes (strToLower m) "etimedout" ||
      strIncludes (strToLower m) "timeout" || strIncludes (strToLower m) "timed out") = true
  · simp [h1, h2]
  simp only [Bool.not_eq_true] at h2
  by_cases h3 : (strIncludes (strToLower m) "enotfound" ||
      strIncludes (strToLower m) "getaddrinfo") = true
  · simp [h1, h2, h3]
  simp only [Bool.not_eq_true] at h3
  by_cases h4 : (strIncludes (strToLower m) "401" ||
      strIncludes (strToLower m) "unauthorized") = true
  · simp [h1, h2, h3, h4]
  simp only [Bool.not_eq_true] at h4
  by_cases h5 : (strIncludes (strToLower m) "403" ||
      strIncludes (strToLower m) "forbidden") = true
  · simp [h1, h2, h3, h4, h5]
  simp only [Bool.not_eq_true] at h5
  by_cases h6 : (strIncludes (strToLower m) "model" &&
      (strIncludes (strToLower m) "not found" || strIncludes (strToLower m) "404")) = true
  · simp [h1, h2, h3, h4, h5, h6]
  simp only [Bool.not_eq_true] at h6
  by_cases h7 : (strIncludes (strToLower m) "enoent" &&
      strIncludes (strToLower m) "claude") = true
  · simp [h1, h2, h3, h4, h5, h6, h7]
  simp only [Bool.not_eq_true] at h7
  simp [h1, h2, h3, h4, h5, h6, h7]

/-- Claim C8 counterexample: the thrown plain string
`connect ECONNREFUSED 127.0.0.1:11434` contains a recognized
connection-refused signature, yet `classifyError` returns `UNKNOWN`
(with no cause) for it rather than `CONNECTION_REFUSED` — the pattern
rules are applied only to `Error` objects. -/
theorem classifyError_nonError_counterexample :
    strIncludes (strToLower "connect ECONNREFUSED 127.0.0.1:11434") "econnrefused" = true ∧
    classifyError (.nonErr "connect ECONNREFUSED 127.0.0.1:11434") =
      ⟨.UNKNOWN, "connect ECONNREFUSED 127.0.0.1:11434", none, none⟩ ∧
    classifyError (.err "connect ECONNREFUSED 127.0.0.1:11434") ≠
      classifyError (.nonErr "connect ECONNREFUSED 127.0.0.1:11434") := by decide

/-- Claim C8 (amended): a thrown value that is not an `Error` object is
coerced to its string form, which becomes the message, but the pattern
rules are not applied to it: the result is always `UNKNOWN` with no
cause attached. -/
theorem classifyError_nonError (s : String) :
    classifyError (.nonErr s) = ⟨.UNKNOWN, s, none, none⟩ := rfl

/-- Claim C9 counterexample: a 200 response whose JSON body lacks a
`data` array is not treated as a discovery failure: the fetch succeeds
with the empty list, so `getOllamaModels` returns `[]` instead of
falling back to a present, non-empty disk cache. -/
theorem discovery_malformed_body_not_fallback :
    fetchOllamaModelsFromAPI (.response ⟨200, "OK", .jsonNoData⟩) = .ok [] ∧
    getCachedModels "ollama-local" [("ollama-local", ⟨[⟨"m1", "m1", "m1"⟩], 0⟩)] =
      some [⟨"m1", "m1", "m1"⟩] ∧
    (getOllamaModels "ollama-local" 40000 30000 true (.response ⟨200, "OK", .jsonNoData⟩)
        ⟨[], [("ollama-local", ⟨[⟨"m1", "m1", "m1"⟩], 0⟩)]⟩).models = [] ∧
    ([] : List Model) ≠ [⟨"m1", "m1", "m1"⟩] :=
  ⟨rfl, rfl, rfl, by decide⟩

/-- Claim C9 (amended): a non-2xx status or a body that fails JSON
parsing is treated as a discovery failure; a 2xx response whose JSON
body lacks a `data` array yields a successful empty list (not a
failure); on a well-formed success each descriptor is mapped to a
model whose name and shortcut both equal its id. -/
theorem fetchOllamaModelsFromAPI_spec (status : Nat) (statusText message : String)
    (ids : List String) (body : BodyParse) :
    (responseOk status = false →
       fetchFails (.response ⟨status, statusText, body⟩) = true) ∧
    (responseOk status = true →
       fetchOllamaModelsFromAPI (.response ⟨status, statusText, .invalidJson message⟩) =
         .error (.err message) ∧
       fetchOllamaModelsFromAPI (.response ⟨status, statusText, .jsonNoData⟩) = .ok [] ∧
       fetchOllamaModelsFromAPI (.response ⟨status, statusText, .jsonData ids⟩) =
         .ok (ids.map fun id => ⟨id, id, id⟩)) := by
  constructor
  · intro hok
    simp [fetchFails, fetchOllamaModelsFromAPI, hok]
  · intro hok
    refine ⟨?_, ?_, ?_⟩ <;> simp [fetchOllamaModelsFromAPI, hok]

/-- Witness for the amended C9: a 404 fails; a 200 with a `data` array
of one id succeeds with that id as id, name and shortcut. -/
theorem fetchOllamaModelsFromAPI_spec_witness :
    fetchFails (.response ⟨404, "Not Found", .jsonNoData⟩) = true ∧
    fetchOllamaModelsFromAPI (.response ⟨200, "OK", .jsonData ["llama3.2"]⟩) =
      .ok [⟨"llama3.2", "llama3.2", "llama3.2"⟩] :=
  ⟨(fetchOllamaModelsFromAPI_spec 404 "Not Found" "" [] .jsonNoData).1 (by decide),
   ((fetchOllamaModelsFromAPI_spec 200 "OK" "" ["llama3.2"] .jsonNoData).2 (by decide)).2.2⟩

end ClaudeMode
